import Mathlib

/-!
Verification of the vibe-security scanning scripts: a shallow embedding of
the finding model, the pattern-dispatch loop, the dependency checker and the
report synthesizer, with theorems about severity handling, line numbering,
category dispatch, verdict computation and process exit behavior.

The regular-expression engine (Python re.finditer with IGNORECASE and
MULTILINE) is abstracted as an oracle `M : String → String → List Nat`
mapping a pattern source string and a file content to the list of match
start offsets (character indices).  Everything downstream of the match
offsets is embedded directly from the source.
-/

/-- Severity enum from scan_security.py (CRITICAL=4, HIGH=3, MEDIUM=2, LOW=1). -/
inductive Severity where
  | CRITICAL
  | HIGH
  | MEDIUM
  | LOW
deriving DecidableEq, Repr

/-- Numeric value of a severity, as in the Python Enum. -/
def Severity.value : Severity → Nat
  | .CRITICAL => 4
  | .HIGH => 3
  | .MEDIUM => 2
  | .LOW => 1

/-- Finding dataclass from scan_security.py. -/
structure Finding where
  rule_id : String
  severity : Severity
  category : String
  description : String
  file_path : String
  line_number : Nat
  code_snippet : String
  remediation : String
deriving DecidableEq, Repr

/-- ScanResult dataclass from scan_security.py: ordered findings plus a file counter. -/
structure ScanResult where
  findings : List Finding
  files_scanned : Nat
deriving DecidableEq, Repr

/-- One entry of a detection-pattern table: (regex source, rule id, description). -/
structure SrcRule where
  pattern : String
  rule_id : String
  description : String
deriving DecidableEq, Repr

/-- SECRETS_PATTERNS table from scan_security.py (regex sources kept verbatim,
with brace, apostrophe and backtick characters written as hex escapes). -/
def SECRETS_PATTERNS : List SrcRule := [
  ⟨"[\"\x27](?:sk|pk)[-_](?:live|test)[-_][a-zA-Z0-9]\x7b24,\x7d[\"\x27]", "SEC-001", "Stripe API key"⟩,
  ⟨"[\"\x27]AIza[a-zA-Z0-9_-]\x7b35\x7d[\"\x27]", "SEC-002", "Google API key"⟩,
  ⟨"[\"\x27]AKIA[A-Z0-9]\x7b16\x7d[\"\x27]", "SEC-003", "AWS Access Key ID"⟩,
  ⟨"[\"\x27]ghp_[a-zA-Z0-9]\x7b36\x7d[\"\x27]", "SEC-004", "GitHub Personal Access Token"⟩,
  ⟨"[\"\x27]xox[baprs]-[a-zA-Z0-9-]\x7b10,\x7d[\"\x27]", "SEC-005", "Slack Token"⟩,
  ⟨"[\"\x27]eyJ[a-zA-Z0-9_-]*\\.eyJ[a-zA-Z0-9_-]*\\.[a-zA-Z0-9_-]*[\"\x27]", "SEC-006", "JWT Token"⟩,
  ⟨"[\"\x27]your[-_]?256[-_]?bit[-_]?secret[\"\x27]", "SEC-007", "AI-generated placeholder secret"⟩,
  ⟨"[\"\x27]secret[\"\x27]", "SEC-008", "Hardcoded \"secret\" value"⟩,
  ⟨"[\"\x27]password123[\"\x27]", "SEC-009", "Weak hardcoded password"⟩,
  ⟨"[\"\x27]admin@example\\.com[\"\x27]", "SEC-010", "AI-generated test credential"⟩,
  ⟨"[\"\x27]changeme[\"\x27]", "SEC-011", "Placeholder password"⟩,
  ⟨"password\\s*=\\s*[\"\x27][^\"\x27]+[\"\x27]", "SEC-012", "Hardcoded password assignment"⟩,
  ⟨"api[_-]?key\\s*=\\s*[\"\x27][a-zA-Z0-9]\x7b16,\x7d[\"\x27]", "SEC-013", "Hardcoded API key"⟩,
  ⟨"mongodb(?:\\+srv)?://[^\"\x27\\s]+:[^\"\x27\\s]+@", "SEC-014", "MongoDB connection with credentials"⟩,
  ⟨"postgres(?:ql)?://[^\"\x27\\s]+:[^\"\x27\\s]+@", "SEC-015", "PostgreSQL connection with credentials"⟩,
  ⟨"mysql://[^\"\x27\\s]+:[^\"\x27\\s]+@", "SEC-016", "MySQL connection with credentials"⟩]

/-- INJECTION_PATTERNS dict from scan_security.py, in its insertion order
(sql, command, xss, nosql). -/
def INJECTION_PATTERNS : List (String × List SrcRule) := [
  ("sql", [
    ⟨"execute\\s*\\(\\s*[\"\x27].*?\\%s.*?[\"\x27].*?\\%", "INJ-001", "SQL string formatting (use parameterized queries)"⟩,
    ⟨"execute\\s*\\(\\s*f[\"\x27]", "INJ-002", "SQL f-string injection risk"⟩,
    ⟨"execute\\s*\\(\\s*[\"\x27].*?\\+", "INJ-003", "SQL string concatenation"⟩,
    ⟨"cursor\\.execute\\s*\\([^,)]*\\+", "INJ-004", "Cursor execute with concatenation"⟩,
    ⟨"\\.query\\s*\\(\\s*[\x60\"\x27].*?\\$\\\x7b", "INJ-005", "SQL template literal injection"⟩,
    ⟨"SELECT.*FROM.*WHERE.*\\+.*\\+", "INJ-006", "Raw SQL with concatenation"⟩]),
  ("command", [
    ⟨"os\\.system\\s*\\(", "INJ-010", "os.system() is dangerous"⟩,
    ⟨"subprocess\\.[a-z]+\\s*\\([^)]*shell\\s*=\\s*True", "INJ-011", "subprocess with shell=True"⟩,
    ⟨"eval\\s*\\(\\s*(?:request|req|input|user)", "INJ-012", "eval() with user input"⟩,
    ⟨"exec\\s*\\(\\s*(?:request|req|input|user)", "INJ-013", "exec() with user input"⟩,
    ⟨"child_process\\.exec\\s*\\(", "INJ-014", "Node.js exec() command injection risk"⟩]),
  ("xss", [
    ⟨"innerHTML\\s*=\\s*(?![\x27\"]\\s*[\x27\"])", "INJ-020", "innerHTML assignment (XSS risk)"⟩,
    ⟨"document\\.write\\s*\\(", "INJ-021", "document.write() XSS risk"⟩,
    ⟨"\\.html\\s*\\(\\s*(?:req|request|user|data)", "INJ-022", "jQuery .html() with user data"⟩,
    ⟨"dangerouslySetInnerHTML", "INJ-023", "React dangerouslySetInnerHTML"⟩,
    ⟨"v-html\\s*=", "INJ-024", "Vue v-html directive (XSS risk)"⟩,
    ⟨"\\\x7b\\\x7b\\\x7b.*\\\x7d\\\x7d\\\x7d", "INJ-025", "Handlebars unescaped output"⟩]),
  ("nosql", [
    ⟨"\\.find\\s*\\(\\s*(?:req\\.body|request\\.body)", "INJ-030", "NoSQL injection via req.body"⟩,
    ⟨"\\.findOne\\s*\\(\\s*(?:req\\.body|request\\.body)", "INJ-031", "NoSQL injection via req.body"⟩,
    ⟨"\\$where.*(?:req|request|user)", "INJ-032", "MongoDB $where injection"⟩])]

/-- AUTH_PATTERNS table from scan_security.py. -/
def AUTH_PATTERNS : List SrcRule := [
  ⟨"hashlib\\.md5\\s*\\(", "AUTH-001", "MD5 for password hashing (use bcrypt/Argon2)"⟩,
  ⟨"hashlib\\.sha1\\s*\\(", "AUTH-002", "SHA1 for password hashing (use bcrypt/Argon2)"⟩,
  ⟨"crypto\\.createHash\\s*\\(\\s*[\"\x27]md5", "AUTH-003", "Node.js MD5 hashing"⟩,
  ⟨"crypto\\.createHash\\s*\\(\\s*[\"\x27]sha1", "AUTH-004", "Node.js SHA1 hashing"⟩,
  ⟨"localStorage\\.setItem\\s*\\(\\s*[\"\x27](?:token|jwt|auth)", "AUTH-010", "Token in localStorage (use HttpOnly cookies)"⟩,
  ⟨"sessionStorage\\.setItem\\s*\\(\\s*[\"\x27](?:token|jwt|auth)", "AUTH-011", "Token in sessionStorage"⟩,
  ⟨"@app\\.route\\s*\\([^)]*\\)\\s*\\ndef\\s+\\w+\\s*\\([^)]*\\):", "AUTH-020", "Flask route without auth decorator (verify manually)"⟩,
  ⟨"router\\.(get|post|put|delete|patch)\\s*\\([^)]*,\\s*(?:async\\s+)?\\([^)]*\\)\\s*=>", "AUTH-021", "Express route (verify auth middleware)"⟩]

/-- CRYPTO_PATTERNS table from scan_security.py. -/
def CRYPTO_PATTERNS : List SrcRule := [
  ⟨"DES\\s*\\(", "CRYPTO-001", "DES encryption (use AES-256)"⟩,
  ⟨"Blowfish\\s*\\(", "CRYPTO-002", "Blowfish (use AES-256)"⟩,
  ⟨"RC4\\s*\\(", "CRYPTO-003", "RC4 encryption (use AES-256)"⟩,
  ⟨"random\\.randint\\s*\\(.*(?:token|key|secret|password)", "CRYPTO-010", "Insecure random for security (use secrets module)"⟩,
  ⟨"Math\\.random\\s*\\(\\).*(?:token|key|secret|id)", "CRYPTO-011", "Math.random() for security tokens"⟩,
  ⟨"random\\.choice\\s*\\(.*(?:token|key|secret)", "CRYPTO-012", "random.choice for security (use secrets.choice)"⟩]

/-- CLOUD_PATTERNS table from scan_security.py. -/
def CLOUD_PATTERNS : List SrcRule := [
  ⟨"\\.ref\\s*\\(\\s*[\"\x27][\"\x27\\s]*\\)\\.set", "CLOUD-001", "Firebase write without path validation"⟩,
  ⟨"supabase\\s*=\\s*createClient\\s*\\([^)]*anon[^)]*\\)", "CLOUD-002", "Supabase anon key in client (expected but verify RLS)"⟩,
  ⟨"service[_-]?role[_-]?key", "CLOUD-003", "Supabase service role key exposure"⟩,
  ⟨"cors\\s*\\(\\s*\\\x7b\\s*origin\\s*:\\s*[\"\x27]?\\*[\"\x27]?", "CLOUD-010", "CORS allows all origins"⟩,
  ⟨"Access-Control-Allow-Origin.*\\*", "CLOUD-011", "CORS header allows all origins"⟩,
  ⟨"res\\.setHeader\\s*\\(\\s*[\x27\"]Access-Control-Allow-Origin[\x27\"]\\s*,\\s*[\x27\"]\\\\*[\x27\"]", "CLOUD-012", "Wildcard CORS header"⟩,
  ⟨"ACL\\s*[=:]\\s*[\"\x27]public-read", "CLOUD-020", "S3 public read ACL"⟩,
  ⟨"BlockPublicAccess.*false", "CLOUD-021", "S3 public access enabled"⟩]

/-- DATA_PATTERNS table from scan_security.py. -/
def DATA_PATTERNS : List SrcRule := [
  ⟨"pickle\\.loads?\\s*\\(", "DATA-001", "Unsafe pickle deserialization"⟩,
  ⟨"yaml\\.load\\s*\\([^)]*(?!Loader)", "DATA-002", "YAML load without safe loader"⟩,
  ⟨"torch\\.load\\s*\\([^)]*(?!weights_only)", "DATA-003", "PyTorch load without weights_only=True"⟩,
  ⟨"json\\.loads?\\s*\\(.*request", "DATA-010", "JSON parse of request (verify schema validation)"⟩]

/-- Abstraction of Python re.finditer: a matcher oracle takes the pattern
source and the content and returns the match start offsets. -/
def Matcher : Type := String → String → List Nat

/-- Truth value of the Python test `not checks or name in checks` guarding each
category block of SecurityScanner._scan_file (None and the empty list both
enable every category). -/
def checkEnabled (checks : Option (List String)) (name : String) : Bool :=
  match checks with
  | none => true
  | some l => l.isEmpty || l.contains name

/-- The Finding built inside the match loop of
SecurityScanner._check_patterns for one match start offset s: the line number
is the count of newline characters before the match start plus one, and the
snippet is the stripped matched line truncated to 100 characters. -/
def matchFinding (rel : String) (lines : List String) (pr : SrcRule)
    (category : String) (severity : Severity) (remediation : String) (s : Nat) : Finding :=
  let content := String.intercalate "\n" lines
  let line_num := ((content.toList.take s).count '\n') + 1
  let snippet := if line_num ≤ lines.length then (lines.getD (line_num - 1) "").trim else ""
  { rule_id := pr.rule_id
    severity := severity
    category := category
    description := pr.description
    file_path := rel
    line_number := line_num
    code_snippet := snippet.take 100
    remediation := remediation }

/-- SecurityScanner._check_patterns: rejoin the lines, and for every pattern
and every match start emit the corresponding Finding. -/
def checkPatterns (M : Matcher) (rel : String) (lines : List String)
    (patterns : List SrcRule) (category : String) (severity : Severity)
    (remediation : String) : List Finding :=
  let content := String.intercalate "\n" lines
  patterns.flatMap (fun pr =>
    (M pr.pattern content).map (matchFinding rel lines pr category severity remediation))

/-- The injection block of SecurityScanner._scan_file: iterate the
INJECTION_PATTERNS dict in order; sql and command sub-categories get severity
CRITICAL, the others HIGH. -/
def injectionFindings (M : Matcher) (rel : String) (lines : List String) : List Finding :=
  INJECTION_PATTERNS.flatMap (fun cp =>
    checkPatterns M rel lines cp.2 ("Injection (" ++ cp.1 ++ ")")
      (if cp.1 = "sql" ∨ cp.1 = "command" then Severity.CRITICAL else Severity.HIGH)
      "Use parameterized queries/safe APIs")

/-- SecurityScanner._scan_file: decode the file (a read that raises is
modelled as `none` and, per the try/except, contributes no findings), split
into lines, and run each category block whose guard `not checks or name in
checks` holds.  The six guards consult exactly the names secrets, injection,
auth, crypto, cloud and data. -/
def scanFile (M : Matcher) (rel : String) (readResult : Option String)
    (checks : Option (List String)) : List Finding :=
  match readResult with
  | none => []
  | some content =>
    let lines := content.splitOn "\n"
    (if checkEnabled checks "secrets" then
       checkPatterns M rel lines SECRETS_PATTERNS "Secrets" Severity.CRITICAL
         "Move secrets to environment variables or a secrets manager" else [])
    ++ (if checkEnabled checks "injection" then injectionFindings M rel lines else [])
    ++ (if checkEnabled checks "auth" then
       checkPatterns M rel lines AUTH_PATTERNS "Authentication" Severity.HIGH
         "See references/auth.md for secure patterns" else [])
    ++ (if checkEnabled checks "crypto" then
       checkPatterns M rel lines CRYPTO_PATTERNS "Cryptography" Severity.HIGH
         "Use modern algorithms (AES-256, SHA-256, bcrypt)" else [])
    ++ (if checkEnabled checks "cloud" then
       checkPatterns M rel lines CLOUD_PATTERNS "Cloud/Infrastructure" Severity.HIGH
         "See references/infrastructure.md" else [])
    ++ (if checkEnabled checks "data" then
       checkPatterns M rel lines DATA_PATTERNS "Data Handling" Severity.HIGH
         "Use safe deserialization methods" else [])

/-- One candidate file yielded by SecurityScanner._get_files: its path
relative to the root and the outcome of reading it (`none` when the read
raises). -/
structure FileEntry where
  rel : String
  readResult : Option String

/-- SecurityScanner.scan: every yielded candidate file increments
files_scanned and is scanned in sequence, appending its findings. -/
def scan (M : Matcher) (files : List FileEntry) (checks : Option (List String)) : ScanResult :=
  { findings := files.flatMap (fun f => scanFile M f.rel f.readResult checks)
    files_scanned := files.length }

/-- Severity filtering from scan_security.py main:
`[f for f in result.findings if f.severity.value >= min_severity.value]`. -/
def filterBySeverity (minSev : Severity) (findings : List Finding) : List Finding :=
  findings.filter (fun f => decide (minSev.value ≤ f.severity.value))

/-- The findings main prints and tests against fail-on-findings: the severity
filter applies only when a minimum severity was given on the command line. -/
def effectiveFindings (sevOpt : Option Severity) (findings : List Finding) : List Finding :=
  match sevOpt with
  | some m => filterBySeverity m findings
  | none => findings

/-- Python str.lower as used for package names (ASCII case folding, written
structurally so that the kernel can evaluate it). -/
def lowerString (s : String) : String := String.mk (s.data.map Char.toLower)

/-- DependencyFinding dataclass from check_dependencies.py. -/
structure DependencyFinding where
  package : String
  version : Option String
  issue_type : String
  severity : String
  description : String
  file_path : String
  remediation : String
deriving DecidableEq, Repr

/-- HALLUCINATED_PACKAGES for the python ecosystem. -/
def HALLUCINATED_PYTHON : List String :=
  ["huggingface-cli", "flask-security-utils", "django-rest-utils", "pytorch-utils",
   "tensorflow-utils", "numpy-tools", "pandas-utils", "scikit-utils", "aws-sdk",
   "google-cloud-utils", "openai-utils", "langchain-utils"]

/-- HALLUCINATED_PACKAGES for the npm ecosystem. -/
def HALLUCINATED_NPM : List String :=
  ["react-utils", "vue-utils", "next-utils", "express-utils", "node-utils",
   "typescript-utils", "mongodb-utils", "postgres-utils", "aws-sdk-utils", "stripe-utils"]

/-- VULNERABLE_PACKAGES for the python ecosystem: name to the list of
(version-range label, advisory text) entries. -/
def VULNERABLE_PYTHON : List (String × List (String × String)) := [
  ("pyyaml", [("< 5.4", "CVE-2020-14343 - Arbitrary code execution")]),
  ("urllib3", [("< 1.26.5", "CVE-2021-33503 - ReDoS")]),
  ("requests", [("< 2.31.0", "CVE-2023-32681 - Header injection")]),
  ("cryptography", [("< 41.0.0", "Multiple CVEs")]),
  ("pillow", [("< 10.0.1", "CVE-2023-44271 - DoS")]),
  ("django", [("< 4.2.4", "Multiple security fixes")]),
  ("flask", [("< 2.3.2", "Security updates")]),
  ("jinja2", [("< 3.1.2", "XSS vulnerability")]),
  ("werkzeug", [("< 2.3.7", "Security updates")]),
  ("numpy", [("< 1.22.0", "Buffer overflow")])]

/-- VULNERABLE_PACKAGES for the npm ecosystem. -/
def VULNERABLE_NPM : List (String × List (String × String)) := [
  ("lodash", [("< 4.17.21", "CVE-2021-23337 - Command injection")]),
  ("axios", [("< 1.6.0", "SSRF vulnerability")]),
  ("express", [("< 4.18.2", "Multiple security fixes")]),
  ("jsonwebtoken", [("< 9.0.0", "Multiple CVEs")]),
  ("mongoose", [("< 6.10.0", "Prototype pollution")]),
  ("sequelize", [("< 6.29.0", "SQL injection")]),
  ("minimist", [("< 1.2.6", "Prototype pollution")]),
  ("node-fetch", [("< 3.3.0", "Security updates")]),
  ("got", [("< 11.8.5", "Security updates")]),
  ("ws", [("< 8.11.0", "ReDoS")])]

/-- The hallucinated-package finding built by DependencyChecker for a python
package whose lowercased name is in the denylist. -/
def pythonHallFinding (pkg : String) (version : Option String) (fp : String) : DependencyFinding :=
  { package := pkg
    version := version
    issue_type := "hallucinated"
    severity := "CRITICAL"
    description := "Package \"" ++ pkg ++ "\" is commonly hallucinated by AI and may not exist"
    file_path := fp
    remediation := "Verify package exists on PyPI: pip search or visit pypi.org" }

/-- The vulnerable-package findings built by DependencyChecker._check_python_package:
one HIGH finding per advisory entry of the matching table row. -/
def pythonVulnFindings (pkg : String) (version : Option String) (fp : String) : List DependencyFinding :=
  match VULNERABLE_PYTHON.find? (fun e => e.1 == lowerString pkg) with
  | some entry => entry.2.map (fun vc =>
      { package := pkg
        version := version
        issue_type := "vulnerable"
        severity := "HIGH"
        description := pkg ++ " " ++ vc.1 ++ ": " ++ vc.2
        file_path := fp
        remediation := "Update " ++ pkg ++ " to latest version" })
  | none => []

/-- DependencyChecker._check_python_package: a hallucinated CRITICAL finding
when the lowercased name is denylisted, then the vulnerable HIGH findings. -/
def checkPythonPackage (pkg : String) (version : Option String) (fp : String) : List DependencyFinding :=
  (if HALLUCINATED_PYTHON.contains (lowerString pkg) then [pythonHallFinding pkg version fp] else [])
  ++ pythonVulnFindings pkg version fp

/-- The hallucinated-package finding built for an npm package. -/
def npmHallFinding (pkg : String) (version : String) (fp : String) : DependencyFinding :=
  { package := pkg
    version := some version
    issue_type := "hallucinated"
    severity := "CRITICAL"
    description := "Package \"" ++ pkg ++ "\" is commonly hallucinated by AI and may not exist"
    file_path := fp
    remediation := "Verify package exists on npm: npm view or visit npmjs.com" }

/-- The vulnerable-package findings of DependencyChecker._check_npm_package. -/
def npmVulnFindings (pkg : String) (version : String) (fp : String) : List DependencyFinding :=
  match VULNERABLE_NPM.find? (fun e => e.1 == lowerString pkg) with
  | some entry => entry.2.map (fun vc =>
      { package := pkg
        version := some version
        issue_type := "vulnerable"
        severity := "HIGH"
        description := pkg ++ " " ++ vc.1 ++ ": " ++ vc.2
        file_path := fp
        remediation := "Run: npm update " ++ pkg })
  | none => []

/-- The suspicious-version finding of DependencyChecker._check_npm_package:
MEDIUM when the version string is a wildcard, the literal latest, or empty. -/
def npmSuspiciousFindings (pkg : String) (version : String) (fp : String) : List DependencyFinding :=
  if ["*", "latest", ""].contains version then
    [{ package := pkg
       version := some version
       issue_type := "suspicious"
       severity := "MEDIUM"
       description := "Package \"" ++ pkg ++ "\" uses unpinned version \"" ++ version ++ "\""
       file_path := fp
       remediation := "Pin to specific version: npm install pkg@x.y.z --save-exact" }]
  else []

/-- DependencyChecker._check_npm_package: hallucinated check, then vulnerable
check, then unpinned-version check, appended in that order. -/
def checkNpmPackage (pkg : String) (version : String) (fp : String) : List DependencyFinding :=
  (if HALLUCINATED_NPM.contains (lowerString pkg) then [npmHallFinding pkg version fp] else [])
  ++ npmVulnFindings pkg version fp
  ++ npmSuspiciousFindings pkg version fp

/-- The findings of a collection whose issue_type field is hallucinated. -/
def hallucinatedOf (fs : List DependencyFinding) : List DependencyFinding :=
  fs.filter (fun f => f.issue_type == "hallucinated")

/-- The severity-count summary parsed from the scan_security JSON output, as
read by generate_report.py (`sec.get(key, 0)`). -/
structure SecSummary where
  critical : Nat
  high : Nat
  medium : Nat
  low : Nat
deriving DecidableEq, Repr

/-- The dependency-check JSON output as read by generate_report.py. -/
structure DepSummary where
  total_findings : Nat
  findings : List DependencyFinding
deriving DecidableEq, Repr

/-- Deployment-gate verdict of the executive summary of
generate_markdown_report (which of the four summary lines is emitted). -/
inductive Verdict where
  | BLOCKED
  | ACTION_REQUIRED
  | REVIEW
  | PASSED
deriving DecidableEq, Repr

/-- The `critical` count generate_report.py reads: `sec.get('critical', 0)`,
0 when the security-scan result is absent or errored. -/
def secCritical : Option SecSummary → Nat
  | none => 0
  | some s => s.critical

/-- The `high` count read with default 0. -/
def secHigh : Option SecSummary → Nat
  | none => 0
  | some s => s.high

/-- The `medium` count read with default 0. -/
def secMedium : Option SecSummary → Nat
  | none => 0
  | some s => s.medium

/-- The deployment-gate branch of generate_markdown_report: the chain of
tests `critical > 0`, `high > 0`, `medium > 0` over the security-scan counts
(the dependency collection is received but only its total feeds the summary
table, not this branch). -/
def reportVerdict (sec : Option SecSummary) (dep : Option DepSummary) : Verdict :=
  if 0 < secCritical sec then Verdict.BLOCKED
  else if 0 < secHigh sec then Verdict.ACTION_REQUIRED
  else if 0 < secMedium sec then Verdict.REVIEW
  else Verdict.PASSED

/-- Observable outcome of one script invocation: the process exit code,
whether the missing-path error message was printed, and whether a scan was
attempted. -/
structure MainOutcome where
  exitCode : Nat
  errorReported : Bool
  scanAttempted : Bool
deriving DecidableEq, Repr

/-- main of scan_security.py: a missing target path prints an error and calls
sys.exit(1) before any scan; otherwise the scan runs, the findings are
filtered when a minimum severity was given, and the process exits 1 exactly
when --fail-on-findings was passed and the filtered findings are nonempty. -/
def scanSecurityMain (pathExists failOnFindings : Bool) (sevOpt : Option Severity)
    (findings : List Finding) : MainOutcome :=
  if !pathExists then
    { exitCode := 1, errorReported := true, scanAttempted := false }
  else
    { exitCode := if failOnFindings && !(effectiveFindings sevOpt findings).isEmpty then 1 else 0
      errorReported := false
      scanAttempted := true }

/-- main of check_dependencies.py: same missing-path branch; otherwise exits 1
exactly when --fail-on-findings was passed and any finding exists. -/
def checkDependenciesMain (pathExists failOnFindings : Bool)
    (findings : List DependencyFinding) : MainOutcome :=
  if !pathExists then
    { exitCode := 1, errorReported := true, scanAttempted := false }
  else
    { exitCode := if failOnFindings && !findings.isEmpty then 1 else 0
      errorReported := false
      scanAttempted := true }

/-- main of generate_report.py: a missing target path prints the same error
message but then merely returns from main, so the process exits 0; otherwise
the checks run and main always exits 0. -/
def generateReportMain (pathExists : Bool) : MainOutcome :=
  if !pathExists then
    { exitCode := 0, errorReported := true, scanAttempted := false }
  else
    { exitCode := 0, errorReported := false, scanAttempted := true }

/-- Every finding emitted by checkPatterns carries the category and severity
of the block that produced it. -/
theorem checkPatterns_fields (M : Matcher) (rel : String) (lines : List String)
    (patterns : List SrcRule) (category : String) (severity : Severity) (remediation : String) :
    ∀ f ∈ checkPatterns M rel lines patterns category severity remediation,
      f.category = category ∧ f.severity = severity := by
  intro f hf
  simp only [checkPatterns, List.mem_flatMap, List.mem_map] at hf
  obtain ⟨p, _, s, _, rfl⟩ := hf
  exact ⟨rfl, rfl⟩

/-- The hallucinated filter distributes over append. -/
theorem hallucinatedOf_append (l1 l2 : List DependencyFinding) :
    hallucinatedOf (l1 ++ l2) = hallucinatedOf l1 ++ hallucinatedOf l2 :=
  List.filter_append l1 l2

/-- Every vulnerable-table finding for a python package has issue_type vulnerable. -/
theorem pythonVulnFindings_vulnerable (pkg : String) (version : Option String) (fp : String) :
    ∀ f ∈ pythonVulnFindings pkg version fp, f.issue_type = "vulnerable" := by
  intro f hf
  unfold pythonVulnFindings at hf
  cases hm : VULNERABLE_PYTHON.find? (fun e => e.1 == lowerString pkg) with
  | none => rw [hm] at hf; exact absurd hf (List.not_mem_nil f)
  | some entry =>
    rw [hm] at hf
    simp only [List.mem_map] at hf
    obtain ⟨vc, _, rfl⟩ := hf
    rfl

/-- Every vulnerable-table finding for an npm package has issue_type vulnerable. -/
theorem npmVulnFindings_vulnerable (pkg version fp : String) :
    ∀ f ∈ npmVulnFindings pkg version fp, f.issue_type = "vulnerable" := by
  intro f hf
  unfold npmVulnFindings at hf
  cases hm : VULNERABLE_NPM.find? (fun e => e.1 == lowerString pkg) with
  | none => rw [hm] at hf; exact absurd hf (List.not_mem_nil f)
  | some entry =>
    rw [hm] at hf
    simp only [List.mem_map] at hf
    obtain ⟨vc, _, rfl⟩ := hf
    rfl

/-- Every unpinned-version finding has issue_type suspicious. -/
theorem npmSuspiciousFindings_suspicious (pkg version fp : String) :
    ∀ f ∈ npmSuspiciousFindings pkg version fp, f.issue_type = "suspicious" := by
  intro f hf
  unfold npmSuspiciousFindings at hf
  split at hf
  · simp only [List.mem_singleton] at hf
    subst hf
    rfl
  · exact absurd hf (List.not_mem_nil f)

/-- The vulnerable block contributes no hallucinated finding (python). -/
theorem hallucinatedOf_pythonVuln (pkg : String) (version : Option String) (fp : String) :
    hallucinatedOf (pythonVulnFindings pkg version fp) = [] := by
  refine List.filter_eq_nil_iff.mpr ?_
  intro f hf
  rw [pythonVulnFindings_vulnerable pkg version fp f hf]
  decide

/-- The vulnerable block contributes no hallucinated finding (npm). -/
theorem hallucinatedOf_npmVuln (pkg version fp : String) :
    hallucinatedOf (npmVulnFindings pkg version fp) = [] := by
  refine List.filter_eq_nil_iff.mpr ?_
  intro f hf
  rw [npmVulnFindings_vulnerable pkg version fp f hf]
  decide

/-- The unpinned-version block contributes no hallucinated finding. -/
theorem hallucinatedOf_npmSuspicious (pkg version fp : String) :
    hallucinatedOf (npmSuspiciousFindings pkg version fp) = [] := by
  refine List.filter_eq_nil_iff.mpr ?_
  intro f hf
  rw [npmSuspiciousFindings_suspicious pkg version fp f hf]
  decide

/-- A finding used by witnesses: an AUTH-001 match as the scanner would
record it. -/
def demoFinding : Finding :=
  { rule_id := "AUTH-001"
    severity := Severity.HIGH
    category := "Authentication"
    description := "MD5 for password hashing (use bcrypt/Argon2)"
    file_path := "app.py"
    line_number := 3
    code_snippet := "hashlib.md5(pw)"
    remediation := "See references/auth.md for secure patterns" }

/-- Claim C3: severity-threshold filtering returns exactly the findings at or
above the minimum, preserves the original relative order (it is a sublist of
the input), and is monotone: everything kept at threshold HIGH is kept at
threshold MEDIUM. -/
theorem severity_filter_correct (m : Severity) (fs : List Finding) :
    (∀ f, f ∈ filterBySeverity m fs ↔ f ∈ fs ∧ m.value ≤ f.severity.value) ∧
    (filterBySeverity m fs).Sublist fs ∧
    (∀ f ∈ filterBySeverity Severity.HIGH fs, f ∈ filterBySeverity Severity.MEDIUM fs) := by
  refine ⟨fun f => ?_, List.filter_sublist fs, fun f hf => ?_⟩
  · simp [filterBySeverity, List.mem_filter]
  · simp only [filterBySeverity, List.mem_filter, decide_eq_true_eq] at hf ⊢
    exact ⟨hf.1, le_trans (by decide) hf.2⟩

/-- Witness for C3 at a concrete scan: a HIGH finding kept at threshold HIGH
is also kept at threshold MEDIUM. -/
theorem severity_filter_correct_witness :
    demoFinding ∈ filterBySeverity Severity.MEDIUM [demoFinding] :=
  (severity_filter_correct Severity.MEDIUM [demoFinding]).2.2 demoFinding (by decide)

/-- Claim C6: the manifest entry axios with version wildcard yields exactly
two dependency findings: one HIGH vulnerable and one MEDIUM suspicious, and
no hallucinated finding. -/
theorem axios_star_two_findings :
    (checkNpmPackage "axios" "*" "package.json").length = 2 ∧
    ((checkNpmPackage "axios" "*" "package.json").filter
        (fun f => f.issue_type == "vulnerable" && f.severity == "HIGH")).length = 1 ∧
    ((checkNpmPackage "axios" "*" "package.json").filter
        (fun f => f.issue_type == "suspicious" && f.severity == "MEDIUM")).length = 1 ∧
    hallucinatedOf (checkNpmPackage "axios" "*" "package.json") = [] := by decide

/-- Claim C9: a directory whose only candidate file cannot be read raises
nothing: the file still counts in files_scanned and contributes no findings,
for every matcher and every category selection. -/
theorem undecodable_file_zero_findings (M : Matcher) (checks : Option (List String)) :
    scan M [{ rel := "mojibake.py", readResult := none }] checks =
      { findings := [], files_scanned := 1 } := rfl

/-- Claim C10: restricting the scan to the accepted CLI value xss produces no
findings for any file, because the per-file dispatch only consults the six
category names and never xss. -/
theorem xss_only_check_yields_nothing (M : Matcher) (rel content : String) :
    scanFile M rel (some content) (some ["xss"]) = [] := rfl

/-- Claim C7: for an invocation whose target path exists (path validation is
the subject of the input-not-found taxonomy), the scanner process exits
non-zero exactly when --fail-on-findings was given and at least one finding
at or above the selected minimum severity exists; in every other case,
including findings present without the flag, it exits zero. -/
theorem fail_on_findings_exit (failOn : Bool) (sevOpt : Option Severity) (fs : List Finding) :
    ((scanSecurityMain true failOn sevOpt fs).exitCode ≠ 0 ↔
      failOn = true ∧ effectiveFindings sevOpt fs ≠ []) ∧
    ((scanSecurityMain true failOn sevOpt fs).exitCode = 0 ↔
      ¬(failOn = true ∧ effectiveFindings sevOpt fs ≠ [])) := by
  cases failOn <;> cases heq : effectiveFindings sevOpt fs <;>
    simp [scanSecurityMain, heq]

/-- Witness for C7: findings are present but the flag is absent, and the
process exits zero. -/
theorem fail_on_findings_exit_witness :
    (scanSecurityMain true false none [demoFinding]).exitCode = 0 :=
  ((fail_on_findings_exit false none [demoFinding]).2).mpr (by simp)

/-- Counterexample to claim C8 as stated: for the report generator a missing
target path prints the error and skips the scan, but main returns normally,
so the process exits zero, not non-zero. -/
theorem missing_path_report_exit_zero :
    (generateReportMain false).errorReported = true ∧
    (generateReportMain false).scanAttempted = false ∧
    ¬((generateReportMain false).exitCode ≠ 0) := by decide

/-- Claim C8 amended: on a missing target path the security scanner and the
dependency checker report the error, attempt no scan and exit 1, while the
report generator reports the error and attempts no scan but exits 0. -/
theorem missing_path_behavior (failOn : Bool) (sevOpt : Option Severity)
    (fs : List Finding) (dfs : List DependencyFinding) :
    scanSecurityMain false failOn sevOpt fs =
      { exitCode := 1, errorReported := true, scanAttempted := false } ∧
    checkDependenciesMain false failOn dfs =
      { exitCode := 1, errorReported := true, scanAttempted := false } ∧
    generateReportMain false =
      { exitCode := 0, errorReported := true, scanAttempted := false } :=
  ⟨rfl, rfl, rfl⟩

/-- Counterexample to claim C1 as stated: a CRITICAL dependency finding (a
hallucinated npm package) exists in the dependency collection, yet with zero
security-scan counts the verdict is PASSED, not BLOCKED. -/
theorem critical_dependency_not_blocking :
    (∃ f ∈ checkNpmPackage "react-utils" "1.0.0" "package.json",
        f.severity = "CRITICAL" ∧ f.issue_type = "hallucinated") ∧
    reportVerdict (some { critical := 0, high := 0, medium := 0, low := 0 })
        (some { total_findings := 1,
                findings := checkNpmPackage "react-utils" "1.0.0" "package.json" })
      = Verdict.PASSED ∧
    reportVerdict (some { critical := 0, high := 0, medium := 0, low := 0 })
        (some { total_findings := 1,
                findings := checkNpmPackage "react-utils" "1.0.0" "package.json" })
      ≠ Verdict.BLOCKED := by decide

/-- Claim C1 amended: the deployment-gate verdict is computed from the
security-scan severity counts alone — BLOCKED exactly when the critical count
is positive, else ACTION_REQUIRED when the high count is positive, else
REVIEW when the medium count is positive, else PASSED — and replacing the
dependency collection by any other never changes it. -/
theorem verdict_from_scan_counts (sec : Option SecSummary) (dep dep2 : Option DepSummary) :
    reportVerdict sec dep = reportVerdict sec dep2 ∧
    (reportVerdict sec dep = Verdict.BLOCKED ↔ 0 < secCritical sec) ∧
    (reportVerdict sec dep = Verdict.ACTION_REQUIRED ↔
      secCritical sec = 0 ∧ 0 < secHigh sec) ∧
    (reportVerdict sec dep = Verdict.REVIEW ↔
      secCritical sec = 0 ∧ secHigh sec = 0 ∧ 0 < secMedium sec) ∧
    (reportVerdict sec dep = Verdict.PASSED ↔
      secCritical sec = 0 ∧ secHigh sec = 0 ∧ secMedium sec = 0) := by
  unfold reportVerdict
  refine ⟨rfl, ?_, ?_, ?_, ?_⟩ <;> split_ifs with h1 h2 h3 <;> simp_all <;> omega

/-- Claim C2: for a package whose case-normalized name is in the hallucinated
denylist of its ecosystem, every version (python: including none) yields
exactly the single CRITICAL hallucinated finding — the hallucinated-filtered
output is one fixed finding whose classification fields never mention the
version. -/
theorem hallucinated_name_only (pkg fp : String) :
    (HALLUCINATED_PYTHON.contains (lowerString pkg) = true →
      ∀ version : Option String,
        hallucinatedOf (checkPythonPackage pkg version fp) = [pythonHallFinding pkg version fp] ∧
        (pythonHallFinding pkg version fp).severity = "CRITICAL" ∧
        (pythonHallFinding pkg version fp).issue_type = "hallucinated") ∧
    (HALLUCINATED_NPM.contains (lowerString pkg) = true →
      ∀ version : String,
        hallucinatedOf (checkNpmPackage pkg version fp) = [npmHallFinding pkg version fp] ∧
        (npmHallFinding pkg version fp).severity = "CRITICAL" ∧
        (npmHallFinding pkg version fp).issue_type = "hallucinated") := by
  constructor
  · intro h version
    have hsplit : checkPythonPackage pkg version fp
        = [pythonHallFinding pkg version fp] ++ pythonVulnFindings pkg version fp := by
      unfold checkPythonPackage
      rw [if_pos h]
    refine ⟨?_, by rfl, by rfl⟩
    rw [hsplit, hallucinatedOf_append, hallucinatedOf_pythonVuln]
    simp [hallucinatedOf, pythonHallFinding]
  · intro h version
    have hsplit : checkNpmPackage pkg version fp
        = [npmHallFinding pkg version fp] ++ (npmVulnFindings pkg version fp
            ++ npmSuspiciousFindings pkg version fp) := by
      unfold checkNpmPackage
      rw [if_pos h, List.append_assoc]
    refine ⟨?_, by rfl, by rfl⟩
    rw [hsplit, hallucinatedOf_append, hallucinatedOf_append,
      hallucinatedOf_npmVuln, hallucinatedOf_npmSuspicious]
    simp [hallucinatedOf, npmHallFinding]

/-- Witness for C2: the denylisted python package aws-sdk with no version and
the denylisted npm package react-utils with a wildcard version each yield
exactly their single CRITICAL hallucinated finding. -/
theorem hallucinated_name_only_witness :
    hallucinatedOf (checkPythonPackage "aws-sdk" none "requirements.txt")
      = [pythonHallFinding "aws-sdk" none "requirements.txt"] ∧
    hallucinatedOf (checkNpmPackage "react-utils" "*" "package.json")
      = [npmHallFinding "react-utils" "*" "package.json"] :=
  ⟨((hallucinated_name_only "aws-sdk" "requirements.txt").1 (by decide) none).1,
   ((hallucinated_name_only "react-utils" "package.json").2 (by decide) "*").1⟩

/-- Claim C4: every finding of checkPatterns records as line number the count
of newline characters preceding some match start plus one, every match start
of every rule yields such a finding, and a match starting in the first line
(no preceding newline) yields line number 1. -/
theorem line_number_newline_count (M : Matcher) (rel : String) (lines : List String)
    (pats : List SrcRule) (cat : String) (sev : Severity) (rem : String) :
    (∀ f ∈ checkPatterns M rel lines pats cat sev rem,
       ∃ p ∈ pats, ∃ s ∈ M p.pattern (String.intercalate "\n" lines),
         f.line_number = ((String.intercalate "\n" lines).toList.take s).count '\n' + 1) ∧
    (∀ p ∈ pats, ∀ s ∈ M p.pattern (String.intercalate "\n" lines),
       ∃ f ∈ checkPatterns M rel lines pats cat sev rem,
         f.rule_id = p.rule_id ∧
         f.line_number = ((String.intercalate "\n" lines).toList.take s).count '\n' + 1 ∧
         (((String.intercalate "\n" lines).toList.take s).count '\n' = 0 →
           f.line_number = 1)) := by
  constructor
  · intro f hf
    simp only [checkPatterns, List.mem_flatMap, List.mem_map] at hf
    obtain ⟨p, hp, s, hs, rfl⟩ := hf
    exact ⟨p, hp, s, hs, rfl⟩
  · intro p hp s hs
    refine ⟨matchFinding rel lines p cat sev rem s, ?_, by rfl, by rfl, fun h0 => ?_⟩
    · simp only [checkPatterns, List.mem_flatMap, List.mem_map]
      exact ⟨p, hp, s, hs, rfl⟩
    · show ((String.intercalate "\n" lines).toList.take s).count '\n' + 1 = 1
      rw [h0]

/-- Witness for C4: with a matcher reporting one match at offset 0 of a
one-line file, the emitted finding has line number 1. -/
theorem line_number_newline_count_witness :
    ∃ f ∈ checkPatterns (fun _ _ => [0]) "app.py" ["x = 1"]
        [{ pattern := "p", rule_id := "SEC-000", description := "demo" }]
        "Secrets" Severity.CRITICAL "fix",
      f.rule_id = "SEC-000" ∧
      f.line_number = ((String.intercalate "\n" ["x = 1"]).toList.take 0).count '\n' + 1 ∧
      (((String.intercalate "\n" ["x = 1"]).toList.take 0).count '\n' = 0 →
        f.line_number = 1) :=
  (line_number_newline_count (fun _ _ => [0]) "app.py" ["x = 1"]
      [{ pattern := "p", rule_id := "SEC-000", description := "demo" }]
      "Secrets" Severity.CRITICAL "fix").2
    { pattern := "p", rule_id := "SEC-000", description := "demo" } (by decide) 0 (by decide)

/-- Claim C5: whenever the injection category is enabled (explicitly selected
or no restriction given), the scan of a file applies the four injection
sub-category rule sets together — the file findings contain the injection
block, which iterates exactly sql, command, xss and nosql — and every finding
of the sql or command sub-category has severity CRITICAL while every finding
of the xss or nosql sub-category has severity HIGH. -/
theorem injection_subcategories (M : Matcher) (rel content : String)
    (checks : Option (List String)) (h : checkEnabled checks "injection" = true) :
    (∃ pre post, scanFile M rel (some content) checks
        = pre ++ injectionFindings M rel (content.splitOn "\n") ++ post) ∧
    INJECTION_PATTERNS.map Prod.fst = ["sql", "command", "xss", "nosql"] ∧
    (∀ f ∈ injectionFindings M rel (content.splitOn "\n"),
       ((f.category = "Injection (sql)" ∨ f.category = "Injection (command)") →
          f.severity = Severity.CRITICAL) ∧
       ((f.category = "Injection (xss)" ∨ f.category = "Injection (nosql)") →
          f.severity = Severity.HIGH)) := by
  refine ⟨?_, rfl, ?_⟩
  · simp only [scanFile, h, if_true]
    exact ⟨_, _, by simp only [List.append_assoc]; rfl⟩
  · intro f hf
    simp only [injectionFindings, List.mem_flatMap] at hf
    obtain ⟨cp, hcp, hf⟩ := hf
    have hfields := checkPatterns_fields M rel (content.splitOn "\n") cp.2
      ("Injection (" ++ cp.1 ++ ")")
      (if cp.1 = "sql" ∨ cp.1 = "command" then Severity.CRITICAL else Severity.HIGH)
      "Use parameterized queries/safe APIs" f hf
    simp only [INJECTION_PATTERNS, List.mem_cons, List.not_mem_nil, or_false] at hcp
    rcases hcp with rfl | rfl | rfl | rfl <;> obtain ⟨hcat, hsev⟩ := hfields
    · exact ⟨fun _ => by rw [hsev]; decide,
        fun hor => by rw [hcat] at hor; rcases hor with h2 | h2 <;> exact absurd h2 (by decide)⟩
    · exact ⟨fun _ => by rw [hsev]; decide,
        fun hor => by rw [hcat] at hor; rcases hor with h2 | h2 <;> exact absurd h2 (by decide)⟩
    · exact ⟨fun hor => by rw [hcat] at hor; rcases hor with h2 | h2 <;> exact absurd h2 (by decide),
        fun _ => by rw [hsev]; decide⟩
    · exact ⟨fun hor => by rw [hcat] at hor; rcases hor with h2 | h2 <;> exact absurd h2 (by decide),
        fun _ => by rw [hsev]; decide⟩

/-- Witness for C5: with no category restriction the injection guard is
enabled, and the injection block iterates exactly the four sub-categories. -/
theorem injection_subcategories_witness :
    checkEnabled none "injection" = true ∧
    INJECTION_PATTERNS.map Prod.fst = ["sql", "command", "xss", "nosql"] :=
  ⟨rfl, (injection_subcategories (fun _ _ => []) "app.js" "" none rfl).2.1⟩
